import Mathlib

/-!
Shallow embedding of the ONVIF protocol engine of the `ha-virtual-onvif`
repository (files `onvif_server.py` and `discovery_server.py`), together
with theorems settling the specification claims about it.

Python strings are modelled as Lean `String` (lists of characters),
Python dictionaries holding device / subscription records as ordered
association lists (Python dictionaries preserve insertion order), and
record fields read through `dict.get` as `Option String` (a key that is
absent maps to `none`).  Nondeterministic inputs of the code (fresh
UUIDs, timestamps, the host IP, HTTP delivery outcomes) are passed in as
explicit parameters.  A Python exception escaping a handler is modelled
as `Except.error`; `do_POST` turns it into an HTTP 500 reply, mirroring
`self.send_error(500)`.
-/

namespace VirtualOnvif

/-! ### Python string primitives

`findSubAux pat hay` is the character index of the first occurrence of
`pat` in `hay` (`str.find` without the `-1` encoding), `pyFind` is
Python `str.find` itself, `containsSubstr` is the Python `in` operator,
and `pySlice s a b` is `s[a:b]` for `0 ≤ a ≤ b`. -/

def findSubAux (pat : List Char) : List Char → Option Nat
  | [] => if pat = [] then some 0 else none
  | c :: rest =>
      if pat.isPrefixOf (c :: rest) then some 0
      else (findSubAux pat rest).map (· + 1)

def pyFind (s pat : String) : Int :=
  match findSubAux pat.data s.data with
  | some i => (i : Int)
  | none => -1

def containsAux (pat : List Char) : List Char → Bool
  | [] => pat.isEmpty
  | c :: rest =>
      if pat.isPrefixOf (c :: rest) then true else containsAux pat rest

def containsSubstr (s pat : String) : Bool :=
  containsAux pat.data s.data

def pySlice (s : String) (a b : Int) : String :=
  ⟨(s.data.drop a.toNat).take (b - a).toNat⟩

/-- Python `str.startswith`. -/
def pyStartsWith (s pat : String) : Bool :=
  pat.data.isPrefixOf s.data

/-- Python truthiness of a `dict.get(key)` result: `None` and the empty
string are falsy, every other string is truthy. -/
def optTruthy (o : Option String) : Bool :=
  match o with
  | none => false
  | some s => s != ""

/-! ### Data model -/

/-- A device record as stored in `ONVIFServer.devices` (the fields the
protocol handlers read).  Each field is `none` when the key is absent
from the Python dictionary. -/
structure Device where
  name : Option String := none
  manufacturer : Option String := none
  model : Option String := none
  firmware_version : Option String := none
  uuid : Option String := none
  main_stream_url : Option String := none
  sub_stream_url : Option String := none
deriving DecidableEq, Repr

/-- A subscription record as stored by `ONVIFServer.add_subscription`. -/
structure Subscription where
  consumer_ref : String
  created : String
deriving DecidableEq, Repr

/-- The mutable state of `ONVIFServer`: the device registry, the
subscription table (both insertion-ordered, like Python dicts) and the
identifier of the currently active device. -/
structure ServerState where
  devices : List (String × Device) := []
  subscriptions : List (String × Subscription) := []
  current_device_id : Option String := none
deriving DecidableEq, Repr

/-! ### Device registry (`ONVIFServer.add_device` / `remove_device` /
`get_current_device`) -/

/-- `ONVIFServer.add_device`: store the record under its id (replacing
in place when the key exists, appending otherwise, as a Python dict
assignment does) and make it current when no device was current —
`if not self.current_device_id` is Python truthiness, so `None` and the
empty-string id both count as "no current device". -/
def add_device (s : ServerState) (id : String) (d : Device) : ServerState :=
  let devices :=
    if (s.devices.lookup id).isSome
    then s.devices.map (fun p => if p.1 = id then (id, d) else p)
    else s.devices ++ [(id, d)]
  { s with
    devices := devices
    current_device_id :=
      if optTruthy s.current_device_id then s.current_device_id
      else some id }

/-- `ONVIFServer.remove_device`: delete the record; when the removed
device was current, the new current id is the first remaining key
(`next(iter(self.devices.keys()), None)`). -/
def remove_device (s : ServerState) (id : String) : ServerState :=
  if (s.devices.lookup id).isSome then
    let remaining := s.devices.filter (fun p => p.1 != id)
    { s with
      devices := remaining
      current_device_id :=
        if s.current_device_id = some id
        then remaining.head?.map (fun p => p.1)
        else s.current_device_id }
  else s

/-- `ONVIFServer.get_current_device`, before the fallback to `{}`:
`some d` when a current id is set and present in the registry.  The
guard `if self.current_device_id and self.current_device_id in
self.devices` uses Python truthiness, so a stored empty-string id
counts as no selection. -/
def get_current_device (s : ServerState) : Option Device :=
  match s.current_device_id with
  | some id => if id = "" then none else s.devices.lookup id
  | none => none

/-- The dictionary actually handed to the handlers: the current device,
or the empty dictionary `{}` when there is none. -/
def current_device_record (s : ServerState) : Device :=
  (get_current_device s).getD {}

/-! ### Subscription table (`ONVIFServer.add_subscription` /
`remove_subscription`) -/

def add_subscription (s : ServerState) (id ref ts : String) : ServerState :=
  { s with subscriptions :=
      if (s.subscriptions.lookup id).isSome
      then s.subscriptions.map (fun p => if p.1 = id then (id, ⟨ref, ts⟩) else p)
      else s.subscriptions ++ [(id, ⟨ref, ts⟩)] }

def remove_subscription (s : ServerState) (id : String) : ServerState :=
  { s with subscriptions :=
      if (s.subscriptions.lookup id).isSome
      then s.subscriptions.filter (fun p => p.1 != id)
      else s.subscriptions }

/-! ### Rendered SOAP response templates

The string constants below are the f-string templates of
`onvif_server.py` with the interpolation points cut out; each rendering
function recomposes them exactly as the f-string does. -/

def gdiSeg0 : String :=
  "<?xml version=\"1.0\" encoding=\"UTF-8\"?>\n<soap:Envelope xmlns:soap=\"http://www.w3.org/2003/05/soap-envelope\">\n    <soap:Body>\n        <tds:GetDeviceInformationResponse xmlns:tds=\"http://www.onvif.org/ver10/device/wsdl\">\n            <tds:Manufacturer>"

def gdiSeg1 : String :=
  "</tds:Manufacturer>\n            <tds:Model>"

def gdiSeg2 : String :=
  "</tds:Model>\n            <tds:FirmwareVersion>"

def gdiSeg3 : String :=
  "</tds:FirmwareVersion>\n            <tds:SerialNumber>"

def gdiSeg4 : String :=
  "</tds:SerialNumber>\n            <tds:HardwareId>VirtualONVIF-"

def gdiSeg5 : String :=
  "</tds:HardwareId>\n        </tds:GetDeviceInformationResponse>\n    </soap:Body>\n</soap:Envelope>"


def gcapSeg0 : String :=
  "<?xml version=\"1.0\" encoding=\"UTF-8\"?>\n<soap:Envelope xmlns:soap=\"http://www.w3.org/2003/05/soap-envelope\">\n    <soap:Body>\n        <tds:GetCapabilitiesResponse xmlns:tds=\"http://www.onvif.org/ver10/device/wsdl\">\n            <tds:Capabilities>\n                <tt:Analytics xmlns:tt=\"http://www.onvif.org/ver10/schema\">\n                    <tt:XAddr>http://"

def gcapSeg1 : String :=
  ":8081/onvif/analytics_service</tt:XAddr>\n                </tt:Analytics>\n                <tt:Device xmlns:tt=\"http://www.onvif.org/ver10/schema\">\n                    <tt:XAddr>http://"

def gcapSeg2 : String :=
  ":8081/onvif/device_service</tt:XAddr>\n                    <tt:Network>\n                        <tt:IPFilter>false</tt:IPFilter>\n                        <tt:ZeroConfiguration>false</tt:ZeroConfiguration>\n                        <tt:IPVersion6>false</tt:IPVersion6>\n                        <tt:DynDNS>false</tt:DynDNS>\n                    </tt:Network>\n                    <tt:System>\n                        <tt:DiscoveryResolve>false</tt:DiscoveryResolve>\n                        <tt:DiscoveryBye>false</tt:DiscoveryBye>\n                        <tt:RemoteDiscovery>false</tt:RemoteDiscovery>\n                    </tt:System>\n                </tt:Device>\n                <tt:Events xmlns:tt=\"http://www.onvif.org/ver10/schema\">\n                    <tt:XAddr>http://"

def gcapSeg3 : String :=
  ":8081/onvif/event_service</tt:XAddr>\n                    <tt:WSSubscriptionPolicySupport>true</tt:WSSubscriptionPolicySupport>\n                    <tt:WSPullPointSupport>false</tt:WSPullPointSupport>\n                </tt:Events>\n                <tt:Media xmlns:tt=\"http://www.onvif.org/ver10/schema\">\n                    <tt:XAddr>http://"

def gcapSeg4 : String :=
  ":8082/onvif/media_service</tt:XAddr>\n                    <tt:StreamingCapabilities>\n                        <tt:RTPMulticast>false</tt:RTPMulticast>\n                        <tt:RTP_TCP>true</tt:RTP_TCP>\n                        <tt:RTP_RTSP_TCP>true</tt:RTP_RTSP_TCP>\n                    </tt:StreamingCapabilities>\n                </tt:Media>\n            </tds:Capabilities>\n        </tds:GetCapabilitiesResponse>\n    </soap:Body>\n</soap:Envelope>"


def mainProfSeg0 : String :=
  "\n                <trt:Profiles token=\"Profile_1\" fixed=\"true\">\n                    <tt:Name>MainStream</tt:Name>\n                    <tt:VideoSourceConfiguration token=\"VideoSource_1\">\n                        <tt:Name>VideoSource_1</tt:Name>\n                        <tt:UseCount>1</tt:UseCount>\n                        <tt:SourceToken>VideoSource_1</tt:SourceToken>\n                        <tt:Bounds x=\"0\" y=\"0\" width=\"1920\" height=\"1080\"/>\n                    </tt:VideoSourceConfiguration>\n                    <tt:VideoEncoderConfiguration token=\"VideoEncoder_1\">\n                        <tt:Name>VideoEncoder_1</tt:Name>\n                        <tt:UseCount>1</tt:UseCount>\n                        <tt:Encoding>H264</tt:Encoding>\n                        <tt:Resolution>\n                            <tt:Width>1920</tt:Width>\n                            <tt:Height>1080</tt:Height>\n                        </tt:Resolution>\n                        <tt:Quality>5</tt:Quality>\n                        <tt:RateControl>\n                            <tt:FrameRateLimit>30</tt:FrameRateLimit>\n                            <tt:EncodingInterval>1</tt:EncodingInterval>\n                            <tt:BitrateLimit>8000</tt:BitrateLimit>\n                        </tt:RateControl>\n                        <tt:H264>\n                            <tt:GovLength>30</tt:GovLength>\n                            <tt:H264Profile>Main</tt:H264Profile>\n                        </tt:H264>\n                    </tt:VideoEncoderConfiguration>\n                </trt:Profiles>"


def subProfSeg0 : String :=
  "\n                <trt:Profiles token=\"Profile_2\" fixed=\"true\">\n                    <tt:Name>SubStream</tt:Name>\n                    <tt:VideoSourceConfiguration token=\"VideoSource_1\">\n                        <tt:Name>VideoSource_1</tt:Name>\n                        <tt:UseCount>1</tt:UseCount>\n                        <tt:SourceToken>VideoSource_1</tt:SourceToken>\n                        <tt:Bounds x=\"0\" y=\"0\" width=\"704\" height=\"576\"/>\n                    </tt:VideoSourceConfiguration>\n                    <tt:VideoEncoderConfiguration token=\"VideoEncoder_2\">\n                        <tt:Name>VideoEncoder_2</tt:Name>\n                        <tt:UseCount>1</tt:UseCount>\n                        <tt:Encoding>H264</tt:Encoding>\n                        <tt:Resolution>\n                            <tt:Width>704</tt:Width>\n                            <tt:Height>576</tt:Height>\n                        </tt:Resolution>\n                        <tt:Quality>3</tt:Quality>\n                        <tt:RateControl>\n                            <tt:FrameRateLimit>15</tt:FrameRateLimit>\n                            <tt:EncodingInterval>1</tt:EncodingInterval>\n                            <tt:BitrateLimit>1000</tt:BitrateLimit>\n                        </tt:RateControl>\n                        <tt:H264>\n                            <tt:GovLength>15</tt:GovLength>\n                            <tt:H264Profile>Baseline</tt:H264Profile>\n                        </tt:H264>\n                    </tt:VideoEncoderConfiguration>\n                </trt:Profiles>"


def gpSeg0 : String :=
  "<?xml version=\"1.0\" encoding=\"UTF-8\"?>\n<soap:Envelope xmlns:soap=\"http://www.w3.org/2003/05/soap-envelope\"\n               xmlns:trt=\"http://www.onvif.org/ver10/media/wsdl\"\n               xmlns:tt=\"http://www.onvif.org/ver10/schema\">\n    <soap:Body>\n        <trt:GetProfilesResponse>\n            "

def gpSeg1 : String :=
  "\n        </trt:GetProfilesResponse>\n    </soap:Body>\n</soap:Envelope>"


def gsuSeg0 : String :=
  "<?xml version=\"1.0\" encoding=\"UTF-8\"?>\n<soap:Envelope xmlns:soap=\"http://www.w3.org/2003/05/soap-envelope\">\n    <soap:Body>\n        <trt:GetStreamUriResponse xmlns:trt=\"http://www.onvif.org/ver10/media/wsdl\">\n            <trt:MediaUri>\n                <tt:Uri xmlns:tt=\"http://www.onvif.org/ver10/schema\">"

def gsuSeg1 : String :=
  "</tt:Uri>\n                <tt:InvalidAfterConnect xmlns:tt=\"http://www.onvif.org/ver10/schema\">false</tt:InvalidAfterConnect>\n                <tt:InvalidAfterReboot xmlns:tt=\"http://www.onvif.org/ver10/schema\">false</tt:InvalidAfterReboot>\n                <tt:Timeout xmlns:tt=\"http://www.onvif.org/ver10/schema\">PT60S</tt:Timeout>\n            </trt:MediaUri>\n        </trt:GetStreamUriResponse>\n    </soap:Body>\n</soap:Envelope>"


def subRespSeg0 : String :=
  "<?xml version=\"1.0\" encoding=\"UTF-8\"?>\n<soap:Envelope xmlns:soap=\"http://www.w3.org/2003/05/soap-envelope\">\n    <soap:Body>\n        <wsnt:SubscribeResponse xmlns:wsnt=\"http://docs.oasis-open.org/wsn/b-2\">\n            <wsnt:SubscriptionReference>\n                <wsa:Address xmlns:wsa=\"http://www.w3.org/2005/08/addressing\">http://"

def subRespSeg1 : String :=
  ":8081/subscription/"

def subRespSeg2 : String :=
  "</wsa:Address>\n            </wsnt:SubscriptionReference>\n        </wsnt:SubscribeResponse>\n    </soap:Body>\n</soap:Envelope>"


def faultSeg0 : String :=
  "<?xml version=\"1.0\" encoding=\"UTF-8\"?>\n<soap:Envelope xmlns:soap=\"http://www.w3.org/2003/05/soap-envelope\">\n    <soap:Body>\n        <soap:Fault>\n            <soap:Code>\n                <soap:Value>soap:Sender</soap:Value>\n            </soap:Code>\n            <soap:Reason>\n                <soap:Text xml:lang=\"en\">"

def faultSeg1 : String :=
  "</soap:Text>\n            </soap:Reason>\n        </soap:Fault>\n    </soap:Body>\n</soap:Envelope>"


def emSeg0 : String :=
  "<?xml version=\"1.0\" encoding=\"UTF-8\"?>\n<wsnt:Notify xmlns:wsnt=\"http://docs.oasis-open.org/wsn/b-2\"\n             xmlns:tns1=\"http://www.onvif.org/ver10/topics\"\n             xmlns:tt=\"http://www.onvif.org/ver10/schema\">\n    <wsnt:NotificationMessage>\n        <wsnt:Topic Dialect=\"http://www.onvif.org/ver10/tev/topicExpression/ConcreteSet\">\n            "

def emSeg1 : String :=
  "\n        </wsnt:Topic>\n        <wsnt:Message>\n            <tt:Message UtcTime=\""

def emSeg2 : String :=
  "\" PropertyOperation=\"Changed\">\n                <tt:Source>\n                    <tt:SimpleItem Name=\"VideoSourceConfigurationToken\" Value=\"VideoSource_1\"/>\n                    <tt:SimpleItem Name=\"VideoSourceToken\" Value=\"VideoSource_1\"/>\n                </tt:Source>\n                <tt:Key>\n                    <tt:SimpleItem Name=\"ObjectId\" Value=\""

def emSeg3 : String :=
  "\"/>\n                </tt:Key>\n                <tt:Data>\n                    "

def emSeg4 : String :=
  "\n                </tt:Data>\n            </tt:Message>\n        </wsnt:Message>\n    </wsnt:NotificationMessage>\n</wsnt:Notify>"


def pmSeg0 : String :=
  "<?xml version=\"1.0\" encoding=\"UTF-8\"?>\n<soap:Envelope xmlns:soap=\"http://www.w3.org/2003/05/soap-envelope\"\n               xmlns:wsa=\"http://www.w3.org/2005/08/addressing\"\n               xmlns:wsd=\"http://schemas.xmlsoap.org/ws/2005/04/discovery\"\n               xmlns:tns=\"http://www.onvif.org/ver10/network/wsdl\">\n    <soap:Header>\n        <wsa:Action>http://schemas.xmlsoap.org/ws/2005/04/discovery/ProbeMatches</wsa:Action>\n        <wsa:MessageID>urn:uuid:"

def pmSeg1 : String :=
  "</wsa:MessageID>\n        "

def pmSeg2 : String :=
  "\n        <wsa:To>http://www.w3.org/2005/08/addressing/anonymous</wsa:To>\n    </soap:Header>\n    <soap:Body>\n        <wsd:ProbeMatches>\n            <wsd:ProbeMatch>\n                <wsa:EndpointReference>\n                    "

def pmSeg3 : String :=
  "\n                </wsa:EndpointReference>\n                <wsd:Types>tns:NetworkVideoTransmitter</wsd:Types>\n                <wsd:Scopes>onvif://www.onvif.org/location/unknown onvif://www.onvif.org/name/"

def pmSeg4 : String :=
  " onvif://www.onvif.org/hardware/VirtualONVIF onvif://www.onvif.org/Profile/Streaming</wsd:Scopes>\n                <wsd:XAddrs>http://"

def pmSeg5 : String :=
  ":8081/onvif/device_service</wsd:XAddrs>\n                <wsd:MetadataVersion>1</wsd:MetadataVersion>\n            </wsd:ProbeMatch>\n        </wsd:ProbeMatches>\n    </soap:Body>\n</soap:Envelope>"

/-! ### Device-service handlers -/

def deviceManufacturer (d : Device) : String := d.manufacturer.getD "Virtual ONVIF"

def deviceModelName (d : Device) : String := d.model.getD "Virtual Camera"

def deviceFirmware (d : Device) : String := d.firmware_version.getD "1.0.0"

def deviceSerial (d : Device) : String := d.uuid.getD "unknown"

/-- `device.get('uuid', 'unknown')[:8]`. -/
def hwIdPart (d : Device) : String := ⟨(d.uuid.getD "unknown").data.take 8⟩

/-- The body of `ONVIFRequestHandler.get_device_information`, rendered
for a given device dictionary. -/
def deviceInfoXml (d : Device) : String :=
  gdiSeg0 ++ deviceManufacturer d ++ gdiSeg1 ++ deviceModelName d ++ gdiSeg2
    ++ deviceFirmware d ++ gdiSeg3 ++ deviceSerial d ++ gdiSeg4
    ++ hwIdPart d ++ gdiSeg5

def get_device_information (s : ServerState) : String :=
  deviceInfoXml (current_device_record s)

def get_capabilities (serverIp : String) : String :=
  gcapSeg0 ++ serverIp ++ gcapSeg1 ++ serverIp ++ gcapSeg2 ++ serverIp
    ++ gcapSeg3 ++ serverIp ++ gcapSeg4

/-! ### Media-service handlers -/

/-- `profiles_xml` accumulated by `ONVIFRequestHandler.get_profiles`:
one block per truthy stream URL on the device. -/
def profiles_xml (d : Device) : String :=
  (if optTruthy d.main_stream_url then mainProfSeg0 else "")
    ++ (if optTruthy d.sub_stream_url then subProfSeg0 else "")

/-- The profile blocks appended by `get_profiles`, as a list: one list
entry per `profiles_xml +=` executed by the code.  `profiles_xml` is the
concatenation of this list (proved below), so its length is the number
of profile blocks in the rendered response. -/
def profileBlocks (d : Device) : List String :=
  (if optTruthy d.main_stream_url then [mainProfSeg0] else [])
    ++ (if optTruthy d.sub_stream_url then [subProfSeg0] else [])

def get_profiles (s : ServerState) : String :=
  gpSeg0 ++ profiles_xml (current_device_record s) ++ gpSeg1

/-- Profile-token extraction of `ONVIFRequestHandler.get_stream_uri`:
default `Profile_1`; when the body contains `ProfileToken`, slice
between `find('<ProfileToken>') + 14` and `find('</ProfileToken>')`
provided `start > 0 and end > start`. -/
def extractProfileToken (body : String) : String :=
  if containsSubstr body "ProfileToken" then
    let start : Int := pyFind body "<ProfileToken>" + 14
    let stop : Int := pyFind body "</ProfileToken>"
    if start > 0 ∧ stop > start then pySlice body start stop else "Profile_1"
  else "Profile_1"

/-- The `stream_url` chosen by `get_stream_uri` for a token. -/
def streamUrlFor (d : Device) (tok : String) : String :=
  if tok = "Profile_1" ∧ optTruthy d.main_stream_url = true then
    d.main_stream_url.getD ""
  else if tok = "Profile_2" ∧ optTruthy d.sub_stream_url = true then
    d.sub_stream_url.getD ""
  else d.main_stream_url.getD ""

def get_stream_uri (s : ServerState) (body : String) : String :=
  gsuSeg0 ++ streamUrlFor (current_device_record s) (extractProfileToken body)
    ++ gsuSeg1

/-! ### Event-service handlers -/

/-- Consumer-reference extraction of
`ONVIFRequestHandler.handle_subscription`: default placeholder; when
the body contains `ConsumerReference`, slice between
`find('<Address>') + 9` and `find('</Address>')` provided
`start > 0 and end > start`. -/
def extractConsumerRef (body : String) : String :=
  if containsSubstr body "ConsumerReference" then
    if pyFind body "<Address>" + 9 > 0
        ∧ pyFind body "</Address>" > pyFind body "<Address>" + 9
    then pySlice body (pyFind body "<Address>" + 9) (pyFind body "</Address>")
    else "http://unknown/notify"
  else "http://unknown/notify"

def subscribeResponse (serverIp subId : String) : String :=
  subRespSeg0 ++ serverIp ++ subRespSeg1 ++ subId ++ subRespSeg2

/-- `handle_subscription`: always registers a subscription under the
freshly generated id and returns the `SubscribeResponse` envelope. -/
def handle_subscription (s : ServerState) (serverIp freshId ts body : String) :
    String × ServerState :=
  (subscribeResponse serverIp freshId,
   add_subscription s freshId (extractConsumerRef body) ts)

def create_fault (errorMsg : String) : String :=
  faultSeg0 ++ errorMsg ++ faultSeg1

/-! ### SOAP dispatcher (`do_POST` and the three service routers)

A branch that calls a method `onvif_server.py` never defines
(`get_services`, `get_scopes`, `get_snapshot_uri`,
`handle_unsubscription`, `get_event_properties`) raises
`AttributeError` in Python; it is embedded as `Except.error`. -/

def handle_device_service (s : ServerState) (serverIp body : String) :
    Except String String :=
  if containsSubstr body "GetDeviceInformation" then
    .ok (get_device_information s)
  else if containsSubstr body "GetCapabilities" then
    .ok (get_capabilities serverIp)
  else if containsSubstr body "GetServices" then
    .error "AttributeError: get_services is not defined"
  else if containsSubstr body "GetScopes" then
    .error "AttributeError: get_scopes is not defined"
  else .ok (create_fault "Unsupported device operation")

def handle_media_service (s : ServerState) (body : String) :
    Except String String :=
  if containsSubstr body "GetProfiles" then .ok (get_profiles s)
  else if containsSubstr body "GetStreamUri" then .ok (get_stream_uri s body)
  else if containsSubstr body "GetSnapshotUri" then
    .error "AttributeError: get_snapshot_uri is not defined"
  else .ok (create_fault "Unsupported media operation")

def handle_event_service (s : ServerState) (serverIp freshId ts body : String) :
    Except String (String × ServerState) :=
  if containsSubstr body "Subscribe" then
    .ok (handle_subscription s serverIp freshId ts body)
  else if containsSubstr body "Unsubscribe" then
    .error "AttributeError: handle_unsubscription is not defined"
  else if containsSubstr body "GetEventProperties" then
    .error "AttributeError: get_event_properties is not defined"
  else .ok (create_fault "Unsupported event operation", s)

/-- An HTTP reply as produced by `do_POST`: status code and body (the
body sent with `send_error(500)` is an HTML error page, irrelevant
here and modelled as `""`). -/
structure HttpReply where
  status : Nat
  body : String
deriving DecidableEq, Repr

/-- Path routing of `do_POST`. -/
def routePost (s : ServerState) (serverIp freshId ts path body : String) :
    Except String (String × ServerState) :=
  if pyStartsWith path "/onvif/device_service" then
    (handle_device_service s serverIp body).map (fun r => (r, s))
  else if pyStartsWith path "/onvif/media_service" then
    (handle_media_service s body).map (fun r => (r, s))
  else if pyStartsWith path "/onvif/event_service" then
    handle_event_service s serverIp freshId ts body
  else .ok (create_fault "Unknown service", s)

/-- `ONVIFRequestHandler.do_POST`: a handler result is sent with status
200; an exception escaping the handlers yields `send_error(500)` and
leaves the server state as it was. -/
def do_post (s : ServerState) (serverIp freshId ts path body : String) :
    HttpReply × ServerState :=
  match routePost s serverIp freshId ts path body with
  | .ok (resp, s2) => (⟨200, resp⟩, s2)
  | .error _ => (⟨500, ""⟩, s)


/-! ### Event notification pipeline (`ONVIFServer.trigger_event` /
`send_event_notification`) -/

/-- The `topic_mapping` dictionary lookup with its
`f'tns1:VideoSource/{event_type}'` default. -/
def topicFor (event_type : String) : String :=
  if event_type = "motion" then "tns1:VideoSource/MotionAlarm"
  else if event_type = "door" then "tns1:Device/TriggerRelay"
  else if event_type = "tamper" then "tns1:VideoSource/ImageTooBlurry"
  else "tns1:VideoSource/" ++ event_type

/-- `str(state).lower()` for a boolean. -/
def pyBoolLower (b : Bool) : String := if b then "true" else "false"

/-- The `event_message` f-string of `trigger_event`. -/
def eventMessage (devId topic ts stateStr : String) : String :=
  emSeg0 ++ topic ++ emSeg1 ++ ts ++ emSeg2 ++ devId ++ emSeg3
    ++ ("<tt:SimpleItem Name=\"State\" Value=\"" ++ stateStr ++ "\"/>")
    ++ emSeg4

/-- Outcome of one notification POST, as observed by
`send_event_notification`: HTTP 200, some other status, or a raised
`requests.RequestException` (timeout, connection refused, ...). -/
inductive DeliveryResult where
  | success
  | httpStatus (code : Nat)
  | requestFailed
deriving DecidableEq, Repr

/-- `ONVIFServer.send_event_notification`: performs the POST (outcome
supplied by the `oracle` environment parameter), logs, and returns
normally in every case — the `requests.RequestException` handler
swallows the exception and non-200 statuses are only logged. -/
def send_event_notification (oracle : String → DeliveryResult)
    (consumerRef eventMsg : String) : DeliveryResult :=
  oracle consumerRef

/-- One delivery attempt made during a trigger fan-out. -/
structure Attempt where
  sub_id : String
  target : String
  payload : String
  result : DeliveryResult
deriving DecidableEq, Repr

/-- The `for sub_id, subscription in self.subscriptions.items()` loop of
`trigger_event`: each send is wrapped in `try/except Exception`, so the
loop continues to the next subscriber whatever the outcome. -/
def notifyLoop (oracle : String → DeliveryResult) (msg : String) :
    List (String × Subscription) → List Attempt
  | [] => []
  | (sid, sub) :: rest =>
      ⟨sid, sub.consumer_ref, msg,
        send_event_notification oracle sub.consumer_ref msg⟩
        :: notifyLoop oracle msg rest

/-- `ONVIFServer.trigger_event`: early return when there are no
subscriptions; otherwise format one shared message and attempt delivery
to every subscriber.  The server state is returned unchanged — nothing
in `trigger_event` mutates the registry or the subscription table. -/
def trigger_event (s : ServerState) (oracle : String → DeliveryResult)
    (device_id event_type : String) (state : Bool) (ts : String) :
    ServerState × List Attempt :=
  if s.subscriptions.isEmpty then (s, [])
  else
    (s, notifyLoop oracle
      (eventMessage device_id (topicFor event_type) ts (pyBoolLower state))
      s.subscriptions)

/-! ### WS-Discovery responder (`discovery_server.py`) -/

/-- `DiscoveryServer.extract_message_id`: slice between
`find('<wsa:MessageID>') + 15` and `find('</wsa:MessageID>')` provided
`start > 0 and end > start`, otherwise a fresh `urn:uuid:` value. -/
def extract_message_id (msg freshRelatesId : String) : String :=
  if pyFind msg "<wsa:MessageID>" + 15 > 0
      ∧ pyFind msg "</wsa:MessageID>" > pyFind msg "<wsa:MessageID>" + 15
  then pySlice msg (pyFind msg "<wsa:MessageID>" + 15)
        (pyFind msg "</wsa:MessageID>")
  else "urn:uuid:" ++ freshRelatesId

/-- The ProbeMatches response f-string of
`DiscoveryServer.send_probe_match`. -/
def probeMatchResponse (freshMsgId relatesTo devUuid devName serverIp : String) :
    String :=
  pmSeg0 ++ freshMsgId ++ pmSeg1
    ++ ("<wsa:RelatesTo>" ++ relatesTo ++ "</wsa:RelatesTo>") ++ pmSeg2
    ++ ("<wsa:Address>urn:uuid:" ++ devUuid ++ "</wsa:Address>") ++ pmSeg3
    ++ devName ++ pmSeg4 ++ serverIp ++ pmSeg5

/-- `DiscoveryServer.send_probe_match`: returns early when
`get_current_device()` gives the falsy `{}`; otherwise sends exactly one
unicast datagram back to the probing client.  The result is
`some (destination address, payload)` of that single `sendto`. -/
def send_probe_match (s : ServerState)
    (freshUuid freshMsgId freshRelatesId serverIp : String)
    (clientAddr probeMsg : String) : Option (String × String) :=
  match get_current_device s with
  | none => none
  | some d =>
      some (clientAddr,
        probeMatchResponse freshMsgId (extract_message_id probeMsg freshRelatesId)
          (d.uuid.getD freshUuid) (d.name.getD "Virtual Camera") serverIp)

/-- The per-datagram test of the `DiscoveryServer.start` receive loop:
only datagrams containing both `Probe` and `NetworkVideoTransmitter`
are answered. -/
def handleDatagram (s : ServerState)
    (freshUuid freshMsgId freshRelatesId serverIp : String)
    (clientAddr msg : String) : Option (String × String) :=
  if containsSubstr msg "Probe" && containsSubstr msg "NetworkVideoTransmitter"
  then send_probe_match s freshUuid freshMsgId freshRelatesId serverIp
        clientAddr msg
  else none

/-! ### Helper lemmas -/

theorem notifyLoop_map_key (oracle : String → DeliveryResult) (msg : String)
    (l : List (String × Subscription)) :
    (notifyLoop oracle msg l).map (fun a => (a.sub_id, a.target, a.payload))
      = l.map (fun p => (p.1, p.2.consumer_ref, msg)) := by
  induction l with
  | nil => rfl
  | cons h t ih => simp [notifyLoop, ih]

theorem notifyLoop_length (oracle : String → DeliveryResult) (msg : String)
    (l : List (String × Subscription)) :
    (notifyLoop oracle msg l).length = l.length := by
  induction l with
  | nil => rfl
  | cons h t ih => simp [notifyLoop, ih]

theorem notifyLoop_map_target (oracle : String → DeliveryResult) (msg : String)
    (l : List (String × Subscription)) :
    (notifyLoop oracle msg l).map (fun a => (a.sub_id, a.target))
      = l.map (fun p => (p.1, p.2.consumer_ref)) := by
  induction l with
  | nil => rfl
  | cons h t ih => simp [notifyLoop, ih]

theorem notifyLoop_map_payload (oracle : String → DeliveryResult) (msg : String)
    (l : List (String × Subscription)) :
    (notifyLoop oracle msg l).map (fun a => a.payload)
      = l.map (fun _ => msg) := by
  induction l with
  | nil => rfl
  | cons h t ih => simp [notifyLoop, ih]

theorem trigger_event_fst (s : ServerState) (oracle : String → DeliveryResult)
    (devId etype : String) (st : Bool) (ts : String) :
    (trigger_event s oracle devId etype st ts).1 = s := by
  unfold trigger_event
  split <;> rfl

/-! ### Claim theorems -/

set_option maxRecDepth 8192 in
/-- C1: the claim says a POST to the device service whose body contains
`GetServices` or `GetScopes` is answered with a static capability/scope
envelope and HTTP 200.  The code instead dispatches those tokens to the
methods `get_services` / `get_scopes`, which `onvif_server.py` never
defines, so the request raises `AttributeError` and `do_POST` answers
HTTP 500 — for every server state.  This theorem evaluates the embedded
dispatcher at the failing inputs. -/
theorem C1_getServices_getScopes_yield_http_500 (s : ServerState)
    (serverIp freshId ts : String) :
    (do_post s serverIp freshId ts "/onvif/device_service"
        "<tds:GetServices/>").1.status = 500
    ∧ (do_post s serverIp freshId ts "/onvif/device_service"
        "<tds:GetScopes/>").1.status = 500
    ∧ handle_device_service s serverIp "<tds:GetServices/>"
        = .error "AttributeError: get_services is not defined"
    ∧ handle_device_service s serverIp "<tds:GetScopes/>"
        = .error "AttributeError: get_scopes is not defined" :=
  ⟨rfl, rfl, rfl, rfl⟩

set_option maxRecDepth 8192 in
/-- C2: the claim says an event-service request containing `Unsubscribe`
for an existing subscription id removes that subscription.  In the code
the `Unsubscribe` branch calls `handle_unsubscription`, a method that
does not exist, so the request raises `AttributeError`, `do_POST`
answers HTTP 500 and the subscription table is left unchanged: the
subscription is never destroyed (no new one is created either).  This
theorem evaluates the embedded dispatcher at a concrete failing state. -/
theorem C2_unsubscribe_yields_500_and_removes_nothing :
    (do_post { subscriptions := [("S-1", ⟨"http://consumer/notify", "t0"⟩)] }
        "10.0.0.5" "NEW-ID" "t1" "/onvif/event_service"
        "<wsnt:Unsubscribe>S-1</wsnt:Unsubscribe>").1.status = 500
    ∧ (do_post { subscriptions := [("S-1", ⟨"http://consumer/notify", "t0"⟩)] }
        "10.0.0.5" "NEW-ID" "t1" "/onvif/event_service"
        "<wsnt:Unsubscribe>S-1</wsnt:Unsubscribe>").2
      = { subscriptions := [("S-1", ⟨"http://consumer/notify", "t0"⟩)] }
    ∧ handle_event_service
        { subscriptions := [("S-1", ⟨"http://consumer/notify", "t0"⟩)] }
        "10.0.0.5" "NEW-ID" "t1" "<wsnt:Unsubscribe>S-1</wsnt:Unsubscribe>"
      = .error "AttributeError: handle_unsubscription is not defined" :=
  ⟨rfl, rfl, rfl⟩

/-- C7: during a trigger fan-out the subscription table is returned
unchanged whatever the delivery outcomes are, one delivery attempt is
made per subscription regardless of how other attempts fare (the
attempted ids, targets and payloads do not depend on the outcome
oracle), `trigger_event` is a total function (it returns normally to
its caller), and with zero subscriptions no delivery attempt is made. -/
theorem C7_trigger_failures_are_isolated (s : ServerState)
    (oracle oracle2 : String → DeliveryResult)
    (devId etype : String) (st : Bool) (ts : String) :
    (trigger_event s oracle devId etype st ts).1 = s
    ∧ (trigger_event s oracle devId etype st ts).2.length
        = s.subscriptions.length
    ∧ (trigger_event s oracle devId etype st ts).2.map
          (fun a => (a.sub_id, a.target, a.payload))
        = (trigger_event s oracle2 devId etype st ts).2.map
          (fun a => (a.sub_id, a.target, a.payload))
    ∧ (trigger_event s oracle devId etype st ts).2.map
          (fun a => (a.sub_id, a.target))
        = s.subscriptions.map (fun p => (p.1, p.2.consumer_ref))
    ∧ (trigger_event { s with subscriptions := [] } oracle devId etype st ts).2
        = [] := by
  refine ⟨trigger_event_fst s oracle devId etype st ts, ?_, ?_, ?_, rfl⟩
  all_goals cases hsubs : s.subscriptions with
  | nil => simp [trigger_event, hsubs]
  | cons p t =>
      simp [trigger_event, hsubs, notifyLoop_length, notifyLoop_map_key,
        notifyLoop_map_target]

/-- C4: after `Subscribe` registers consumer reference `C`, one
`Trigger(devId, "motion", true)` call produces exactly one delivery
attempt, to `C`, whose Notify payload carries the topic
`tns1:VideoSource/MotionAlarm` and the `State` SimpleItem value
`"true"`; the topic mapping sends motion, door and tamper to the fixed
topics and every other event type `e` to `tns1:VideoSource/` followed by
`e` verbatim; and every subscriber of any state receives the same shared
payload. -/
theorem C4_trigger_motion_notifies_subscriber_once
    (C devId subId ts ts2 : String) (oracle : String → DeliveryResult)
    (e : String) (h1 : e ≠ "motion") (h2 : e ≠ "door") (h3 : e ≠ "tamper") :
    (trigger_event (add_subscription {} subId C ts) oracle devId "motion"
        true ts2).2
      = [⟨subId, C,
          eventMessage devId "tns1:VideoSource/MotionAlarm" ts2 "true",
          oracle C⟩]
    ∧ topicFor "motion" = "tns1:VideoSource/MotionAlarm"
    ∧ topicFor "door" = "tns1:Device/TriggerRelay"
    ∧ topicFor "tamper" = "tns1:VideoSource/ImageTooBlurry"
    ∧ topicFor e = "tns1:VideoSource/" ++ e
    ∧ (∃ u v, eventMessage devId "tns1:VideoSource/MotionAlarm" ts2 "true"
        = u ++ "tns1:VideoSource/MotionAlarm" ++ v)
    ∧ (∃ u v, eventMessage devId "tns1:VideoSource/MotionAlarm" ts2 "true"
        = u ++ ("<tt:SimpleItem Name=\"State\" Value=\"" ++ "true" ++ "\"/>")
          ++ v)
    ∧ (∀ s2 : ServerState,
        (trigger_event s2 oracle devId "motion" true ts2).2.map
            (fun a => a.payload)
          = s2.subscriptions.map (fun _ =>
              eventMessage devId "tns1:VideoSource/MotionAlarm" ts2 "true")) := by
  refine ⟨rfl, rfl, rfl, rfl, ?_, ?_, ?_, ?_⟩
  · simp [topicFor, h1, h2, h3]
  · exact ⟨emSeg0,
      emSeg1 ++ ts2 ++ emSeg2 ++ devId ++ emSeg3
        ++ ("<tt:SimpleItem Name=\"State\" Value=\"" ++ "true" ++ "\"/>")
        ++ emSeg4,
      by simp [eventMessage, String.append_assoc]⟩
  · exact ⟨emSeg0 ++ "tns1:VideoSource/MotionAlarm" ++ emSeg1 ++ ts2
        ++ emSeg2 ++ devId ++ emSeg3, emSeg4,
      by simp [eventMessage, String.append_assoc]⟩
  · intro s2
    cases hsubs : s2.subscriptions with
    | nil => simp [trigger_event, hsubs]
    | cons p t =>
        simp [trigger_event, hsubs, notifyLoop_map_payload, topicFor,
          pyBoolLower]

/-- C4 witness: the theorem applied at a concrete non-special event
type, discharging the three hypotheses. -/
theorem C4_trigger_motion_notifies_subscriber_once_witness :
    (trigger_event (add_subscription {} "S" "http://consumer/notify" "t0")
        (fun _ => DeliveryResult.success) "camera_1" "motion" true "t1").2
      = [⟨"S", "http://consumer/notify",
          eventMessage "camera_1" "tns1:VideoSource/MotionAlarm" "t1" "true",
          DeliveryResult.success⟩]
    ∧ topicFor "doorbell" = "tns1:VideoSource/" ++ "doorbell" := by
  have h := C4_trigger_motion_notifies_subscriber_once
    "http://consumer/notify" "camera_1" "S" "t0" "t1"
    (fun _ => DeliveryResult.success) "doorbell"
    (by decide) (by decide) (by decide)
  exact ⟨h.1, h.2.2.2.2.1⟩

theorem streamUrlFor_profile1 (d : Device) :
    streamUrlFor d "Profile_1" = d.main_stream_url.getD "" := by
  unfold streamUrlFor
  split_ifs with hc1 hc2
  · rfl
  · exact absurd hc2.1 (by decide)
  · rfl

theorem streamUrlFor_profile2 (d : Device) :
    streamUrlFor d "Profile_2"
      = (if d.sub_stream_url.getD "" = "" then d.main_stream_url.getD ""
         else d.sub_stream_url.getD "") := by
  cases hsub : d.sub_stream_url with
  | none => simp [streamUrlFor, optTruthy, hsub]
  | some v =>
      by_cases hv : v = ""
      · subst hv; simp [streamUrlFor, optTruthy, hsub]
      · simp [streamUrlFor, optTruthy, hsub, hv]

theorem streamUrlFor_other (d : Device) (tok : String)
    (h1 : tok ≠ "Profile_1") (h2 : tok ≠ "Profile_2") :
    streamUrlFor d tok = d.main_stream_url.getD "" := by
  simp [streamUrlFor, h1, h2]

set_option maxRecDepth 8192 in
/-- C3 counterexample: on the active device whose `sub_stream_url` is
the empty string (a value the config manager produces for cameras with
no sub stream) and whose main stream URL is `rtsp://cam/main`, a request
carrying `ProfileToken` value `Profile_2` is answered with the *main*
stream URL, not the device's sub stream URL — so "value `Profile_2`
yields the sub stream URL" fails as stated. -/
theorem C3_counterexample_profile2_with_empty_sub_url :
    extractProfileToken "<GetStreamUri/><ProfileToken>Profile_2</ProfileToken>"
      = "Profile_2"
    ∧ streamUrlFor
        { main_stream_url := some "rtsp://cam/main", sub_stream_url := some "" }
        "Profile_2" = "rtsp://cam/main"
    ∧ ({ main_stream_url := some "rtsp://cam/main",
         sub_stream_url := some "" } : Device).sub_stream_url.getD "" = ""
    ∧ streamUrlFor
          { main_stream_url := some "rtsp://cam/main",
            sub_stream_url := some "" }
          "Profile_2"
        ≠ ({ main_stream_url := some "rtsp://cam/main",
             sub_stream_url := some "" } : Device).sub_stream_url.getD ""
    ∧ get_stream_uri
          { devices := [("d1",
              { main_stream_url := some "rtsp://cam/main",
                sub_stream_url := some "" })],
            current_device_id := some "d1" }
          "<GetStreamUri/><ProfileToken>Profile_2</ProfileToken>"
        = gsuSeg0 ++ "rtsp://cam/main" ++ gsuSeg1 := by
  refine ⟨by decide, by decide, rfl, by decide, rfl⟩

/-- C3 amended: `Profile_1` and any unknown or missing token yield the
main stream URL; `Profile_2` yields the sub stream URL *when that URL is
non-empty* and falls back to the main stream URL otherwise (an absent
URL reads as the empty string). -/
theorem C3_amended_stream_uri_token_mapping (d : Device) (body : String) :
    (extractProfileToken body = "Profile_1" →
      streamUrlFor d (extractProfileToken body) = d.main_stream_url.getD "")
    ∧ (extractProfileToken body = "Profile_2" →
      streamUrlFor d (extractProfileToken body)
        = (if d.sub_stream_url.getD "" = "" then d.main_stream_url.getD ""
           else d.sub_stream_url.getD ""))
    ∧ (extractProfileToken body ≠ "Profile_1" →
        extractProfileToken body ≠ "Profile_2" →
      streamUrlFor d (extractProfileToken body)
        = d.main_stream_url.getD "") := by
  refine ⟨?_, ?_, ?_⟩
  · intro h; rw [h]; exact streamUrlFor_profile1 d
  · intro h; rw [h]; exact streamUrlFor_profile2 d
  · intro h1 h2; exact streamUrlFor_other d _ h1 h2

set_option maxRecDepth 8192 in
/-- C3 amended witness: on a device with both URLs set, `Profile_2`
returns the exact sub stream URL. -/
theorem C3_amended_stream_uri_token_mapping_witness :
    streamUrlFor
      { main_stream_url := some "rtsp://cam/main",
        sub_stream_url := some "rtsp://cam/sub" }
      (extractProfileToken "<ProfileToken>Profile_2</ProfileToken>")
      = "rtsp://cam/sub" := by
  have h := C3_amended_stream_uri_token_mapping
    { main_stream_url := some "rtsp://cam/main",
      sub_stream_url := some "rtsp://cam/sub" }
    "<ProfileToken>Profile_2</ProfileToken>"
  have h2 := h.2.1 (by decide)
  rw [h2]
  decide

set_option maxRecDepth 8192 in
/-- C6 counterexample: after removing the only (active) device, the
registry is empty and `current_device_id` is `None`, but
`GetDeviceInformation` does *not* return empty fields — it returns the
fixed defaults `Virtual ONVIF` / `Virtual Camera` / `1.0.0` /
`unknown`, and in particular the Manufacturer field is non-empty. -/
theorem C6_counterexample_device_info_defaults_not_empty :
    (remove_device
        { devices := [("d1",
            ⟨some "Cam", some "Acme", some "M1", some "9.9",
             some "uuid-1111", some "rtsp://m", some "rtsp://s"⟩)],
          current_device_id := some "d1" } "d1").devices = []
    ∧ (remove_device
        { devices := [("d1",
            ⟨some "Cam", some "Acme", some "M1", some "9.9",
             some "uuid-1111", some "rtsp://m", some "rtsp://s"⟩)],
          current_device_id := some "d1" } "d1").current_device_id = none
    ∧ get_device_information (remove_device
        { devices := [("d1",
            ⟨some "Cam", some "Acme", some "M1", some "9.9",
             some "uuid-1111", some "rtsp://m", some "rtsp://s"⟩)],
          current_device_id := some "d1" } "d1")
      = gdiSeg0 ++ "Virtual ONVIF" ++ gdiSeg1 ++ "Virtual Camera"
          ++ gdiSeg2 ++ "1.0.0" ++ gdiSeg3 ++ "unknown" ++ gdiSeg4
          ++ "unknown" ++ gdiSeg5
    ∧ deviceManufacturer (current_device_record (remove_device
        { devices := [("d1",
            ⟨some "Cam", some "Acme", some "M1", some "9.9",
             some "uuid-1111", some "rtsp://m", some "rtsp://s"⟩)],
          current_device_id := some "d1" } "d1")) = "Virtual ONVIF"
    ∧ ("Virtual ONVIF" : String) ≠ "" :=
  ⟨rfl, rfl, rfl, rfl, by decide⟩

/-- C6 amended: removing the active device stores the first remaining
registry key as the new `current_device_id` when any device remains and
`None` otherwise; a subsequent `GetDeviceInformation` reflects the
newly selected device's record when its id is non-empty, and returns
the fixed default placeholder fields (`Virtual ONVIF` /
`Virtual Camera` / `1.0.0` / `unknown`) — not empty fields — when no
device remains, and likewise when the newly selected id is the empty
string, which the truthiness guard of `get_current_device` treats as no
selection. -/
theorem C6_amended_remove_active_reselects (s : ServerState) (id : String)
    (h1 : s.current_device_id = some id)
    (h2 : (s.devices.lookup id).isSome = true) :
    ((remove_device s id).devices = [] →
      (remove_device s id).current_device_id = none
      ∧ get_device_information (remove_device s id)
          = gdiSeg0 ++ "Virtual ONVIF" ++ gdiSeg1 ++ "Virtual Camera"
              ++ gdiSeg2 ++ "1.0.0" ++ gdiSeg3 ++ "unknown" ++ gdiSeg4
              ++ "unknown" ++ gdiSeg5)
    ∧ (∀ k d rest, (remove_device s id).devices = (k, d) :: rest →
        (remove_device s id).current_device_id = some k
        ∧ (k ≠ "" →
            current_device_record (remove_device s id) = d
            ∧ get_device_information (remove_device s id) = deviceInfoXml d)
        ∧ (k = "" →
            get_device_information (remove_device s id)
              = gdiSeg0 ++ "Virtual ONVIF" ++ gdiSeg1 ++ "Virtual Camera"
                  ++ gdiSeg2 ++ "1.0.0" ++ gdiSeg3 ++ "unknown" ++ gdiSeg4
                  ++ "unknown" ++ gdiSeg5)) := by
  have hrd : remove_device s id
      = { s with
          devices := s.devices.filter (fun p => p.1 != id)
          current_device_id :=
            (s.devices.filter (fun p => p.1 != id)).head?.map
              (fun p => p.1) } := by
    simp [remove_device, h2, h1]
  constructor
  · intro hempty
    rw [hrd] at hempty
    simp only at hempty
    rw [hrd]
    constructor
    · simp [hempty]
    · simp only [get_device_information, current_device_record,
        get_current_device, hempty]
      rfl
  · intro k d rest hcons
    rw [hrd] at hcons
    simp only at hcons
    rw [hrd]
    refine ⟨by simp [hcons], ?_, ?_⟩
    · intro hk
      constructor
      · simp [current_device_record, get_current_device, hcons, hk,
          List.lookup]
      · simp [get_device_information, current_device_record,
          get_current_device, hcons, hk, List.lookup]
    · intro hk
      subst hk
      simp only [get_device_information, current_device_record,
        get_current_device, hcons]
      rfl

set_option maxRecDepth 8192 in
/-- C6 amended witness: with two registered devices, removing the
active first one makes the second active and `GetDeviceInformation`
renders that device's record. -/
theorem C6_amended_remove_active_reselects_witness :
    (remove_device
        { devices := [("d1", ⟨some "Cam1", none, none, none, some "u1",
            none, none⟩),
          ("d2", ⟨some "Cam2", some "Acme", none, none, some "u2",
            none, none⟩)],
          current_device_id := some "d1" } "d1").current_device_id
      = some "d2"
    ∧ get_device_information (remove_device
        { devices := [("d1", ⟨some "Cam1", none, none, none, some "u1",
            none, none⟩),
          ("d2", ⟨some "Cam2", some "Acme", none, none, some "u2",
            none, none⟩)],
          current_device_id := some "d1" } "d1")
      = deviceInfoXml ⟨some "Cam2", some "Acme", none, none, some "u2",
          none, none⟩ := by
  have h := C6_amended_remove_active_reselects
    { devices := [("d1", ⟨some "Cam1", none, none, none, some "u1",
        none, none⟩),
      ("d2", ⟨some "Cam2", some "Acme", none, none, some "u2",
        none, none⟩)],
      current_device_id := some "d1" } "d1" rfl rfl
  have h2 := h.2 "d2"
    ⟨some "Cam2", some "Acme", none, none, some "u2", none, none⟩ []
    (by decide)
  exact ⟨h2.1, (h2.2.1 (by decide)).2⟩

theorem neg_one_le_pyFind (s pat : String) : (-1 : Int) ≤ pyFind s pat := by
  unfold pyFind
  cases h : findSubAux pat.data s.data with
  | none => simp
  | some i => simp; omega

theorem containsAux_eq_isSome (pat l : List Char) :
    containsAux pat l = (findSubAux pat l).isSome := by
  induction l with
  | nil => cases pat <;> simp [containsAux, findSubAux, List.isEmpty]
  | cons c rest ih =>
      by_cases h : pat.isPrefixOf (c :: rest)
      · simp [containsAux, findSubAux, h]
      · simp [containsAux, findSubAux, h, ih]

theorem pyFind_of_not_contains (s pat : String)
    (h : containsSubstr s pat = false) : pyFind s pat = -1 := by
  unfold containsSubstr at h
  rw [containsAux_eq_isSome] at h
  unfold pyFind
  cases hfind : findSubAux pat.data s.data with
  | none => rfl
  | some i => rw [hfind] at h; simp at h

/-- C5: every datagram containing `Probe` and `NetworkVideoTransmitter`
is, when an active device exists, answered with exactly one unicast
reply sent back to the sender's address; the reply embeds the active
device's uuid inside `urn:uuid:` in the EndpointReference Address, its
RelatesTo header carries the message id extracted from the request, and
when the request carries no MessageID element the RelatesTo value is a
fresh `urn:uuid:` value. -/
theorem C5_probe_match_reply (s : ServerState) (d : Device) (u : String)
    (freshU freshM freshR serverIp clientAddr msg : String)
    (hd : get_current_device s = some d)
    (hu : d.uuid = some u)
    (hp : containsSubstr msg "Probe" = true)
    (hn : containsSubstr msg "NetworkVideoTransmitter" = true) :
    handleDatagram s freshU freshM freshR serverIp clientAddr msg
      = some (clientAddr,
          probeMatchResponse freshM (extract_message_id msg freshR) u
            (d.name.getD "Virtual Camera") serverIp)
    ∧ (∃ a b, probeMatchResponse freshM (extract_message_id msg freshR) u
          (d.name.getD "Virtual Camera") serverIp
        = a ++ ("<wsa:Address>urn:uuid:" ++ u ++ "</wsa:Address>") ++ b)
    ∧ (∃ a b, probeMatchResponse freshM (extract_message_id msg freshR) u
          (d.name.getD "Virtual Camera") serverIp
        = a ++ ("<wsa:RelatesTo>" ++ extract_message_id msg freshR
            ++ "</wsa:RelatesTo>") ++ b)
    ∧ (containsSubstr msg "</wsa:MessageID>" = false →
        extract_message_id msg freshR = "urn:uuid:" ++ freshR) := by
  refine ⟨?_, ?_, ?_, ?_⟩
  · simp [handleDatagram, hp, hn, send_probe_match, hd, hu]
  · exact ⟨pmSeg0 ++ freshM ++ pmSeg1
        ++ ("<wsa:RelatesTo>" ++ extract_message_id msg freshR
            ++ "</wsa:RelatesTo>") ++ pmSeg2,
      pmSeg3 ++ (d.name.getD "Virtual Camera") ++ pmSeg4 ++ serverIp
        ++ pmSeg5,
      by simp [probeMatchResponse, String.append_assoc]⟩
  · exact ⟨pmSeg0 ++ freshM ++ pmSeg1,
      pmSeg2 ++ ("<wsa:Address>urn:uuid:" ++ u ++ "</wsa:Address>")
        ++ pmSeg3 ++ (d.name.getD "Virtual Camera") ++ pmSeg4 ++ serverIp
        ++ pmSeg5,
      by simp [probeMatchResponse, String.append_assoc]⟩
  · intro hc
    have hstop := pyFind_of_not_contains msg "</wsa:MessageID>" hc
    have hge := neg_one_le_pyFind msg "<wsa:MessageID>"
    unfold extract_message_id
    rw [hstop, if_neg]
    rintro ⟨hpos, hlt⟩
    omega

set_option maxRecDepth 8192 in
/-- C5 witness: a concrete probe with no MessageID element, answered
for a registry holding one active device. -/
theorem C5_probe_match_reply_witness :
    handleDatagram
      { devices := [("d1", ⟨some "Cam", none, none, none,
          some "abc-123", none, none⟩)],
        current_device_id := some "d1" }
      "FU" "FM" "FR" "10.0.0.5" "192.168.1.9:3702"
      "<Probe/> NetworkVideoTransmitter"
      = some ("192.168.1.9:3702",
          probeMatchResponse "FM" ("urn:uuid:" ++ "FR") "abc-123" "Cam"
            "10.0.0.5") := by
  have h := C5_probe_match_reply
    { devices := [("d1", ⟨some "Cam", none, none, none,
        some "abc-123", none, none⟩)],
      current_device_id := some "d1" }
    ⟨some "Cam", none, none, none, some "abc-123", none, none⟩
    "abc-123" "FU" "FM" "FR" "10.0.0.5" "192.168.1.9:3702"
    "<Probe/> NetworkVideoTransmitter"
    (by decide) rfl (by decide) (by decide)
  have hmid := h.2.2.2 (by decide)
  rw [h.1, hmid]
  rfl

theorem profiles_xml_eq_concat_blocks (d : Device) :
    profiles_xml d = (profileBlocks d).foldr (· ++ ·) "" := by
  unfold profiles_xml profileBlocks
  cases hm : optTruthy d.main_stream_url
    <;> cases hs : optTruthy d.sub_stream_url
    <;> simp [String.append_empty]

set_option maxRecDepth 100000 in
/-- C8: for an active device with both stream URLs non-empty,
`GetProfiles` renders exactly the two profile blocks, in order, with
tokens `Profile_1` (1920x1080 H264) and `Profile_2` (704x576 H264); an
active device with only the main (resp. only the sub) URL non-empty
yields exactly the one corresponding block. -/
theorem C8_profiles_one_block_per_stream_url
    (s s1 s2 : ServerState) (d d1 d2 : Device)
    (hd : get_current_device s = some d)
    (hm : optTruthy d.main_stream_url = true)
    (hs : optTruthy d.sub_stream_url = true)
    (hd1 : get_current_device s1 = some d1)
    (hm1 : optTruthy d1.main_stream_url = true)
    (hs1 : optTruthy d1.sub_stream_url = false)
    (hd2 : get_current_device s2 = some d2)
    (hm2 : optTruthy d2.main_stream_url = false)
    (hs2 : optTruthy d2.sub_stream_url = true) :
    profileBlocks d = [mainProfSeg0, subProfSeg0]
    ∧ get_profiles s = gpSeg0 ++ (mainProfSeg0 ++ subProfSeg0) ++ gpSeg1
    ∧ (profileBlocks d).length = 2
    ∧ containsSubstr mainProfSeg0 "token=\"Profile_1\"" = true
    ∧ containsSubstr mainProfSeg0 "<tt:Width>1920</tt:Width>" = true
    ∧ containsSubstr mainProfSeg0 "<tt:Height>1080</tt:Height>" = true
    ∧ containsSubstr mainProfSeg0 "<tt:Encoding>H264</tt:Encoding>" = true
    ∧ containsSubstr subProfSeg0 "token=\"Profile_2\"" = true
    ∧ containsSubstr subProfSeg0 "<tt:Width>704</tt:Width>" = true
    ∧ containsSubstr subProfSeg0 "<tt:Height>576</tt:Height>" = true
    ∧ containsSubstr subProfSeg0 "<tt:Encoding>H264</tt:Encoding>" = true
    ∧ profileBlocks d1 = [mainProfSeg0]
    ∧ get_profiles s1 = gpSeg0 ++ mainProfSeg0 ++ gpSeg1
    ∧ containsSubstr mainProfSeg0 "token=\"Profile_2\"" = false
    ∧ profileBlocks d2 = [subProfSeg0]
    ∧ get_profiles s2 = gpSeg0 ++ subProfSeg0 ++ gpSeg1
    ∧ containsSubstr subProfSeg0 "token=\"Profile_1\"" = false := by
  have hrec : current_device_record s = d := by
    simp [current_device_record, hd]
  have hrec1 : current_device_record s1 = d1 := by
    simp [current_device_record, hd1]
  have hrec2 : current_device_record s2 = d2 := by
    simp [current_device_record, hd2]
  refine ⟨?_, ?_, ?_, by decide, by decide, by decide, by decide, by decide,
    by decide, by decide, by decide, ?_, ?_, by decide, ?_, ?_, by decide⟩
  · simp [profileBlocks, hm, hs]
  · simp [get_profiles, hrec, profiles_xml, hm, hs, String.append_assoc]
  · simp [profileBlocks, hm, hs]
  · simp [profileBlocks, hm1, hs1]
  · simp [get_profiles, hrec1, profiles_xml, hm1, hs1, String.append_empty,
      String.append_assoc]
  · simp [profileBlocks, hm2, hs2]
  · simp [get_profiles, hrec2, profiles_xml, hm2, hs2, String.append_assoc]

set_option maxRecDepth 8192 in
/-- C8 witness: concrete registries holding a two-URL device, a
main-only device and a sub-only device. -/
theorem C8_profiles_one_block_per_stream_url_witness :
    get_profiles
        { devices := [("a", ⟨none, none, none, none, none,
            some "rtsp://m", some "rtsp://s"⟩)],
          current_device_id := some "a" }
      = gpSeg0 ++ (mainProfSeg0 ++ subProfSeg0) ++ gpSeg1
    ∧ get_profiles
        { devices := [("b", ⟨none, none, none, none, none,
            some "rtsp://m", none⟩)],
          current_device_id := some "b" }
      = gpSeg0 ++ mainProfSeg0 ++ gpSeg1
    ∧ get_profiles
        { devices := [("c", ⟨none, none, none, none, none,
            none, some "rtsp://s"⟩)],
          current_device_id := some "c" }
      = gpSeg0 ++ subProfSeg0 ++ gpSeg1 := by
  have h := C8_profiles_one_block_per_stream_url
    { devices := [("a", ⟨none, none, none, none, none,
        some "rtsp://m", some "rtsp://s"⟩)],
      current_device_id := some "a" }
    { devices := [("b", ⟨none, none, none, none, none,
        some "rtsp://m", none⟩)],
      current_device_id := some "b" }
    { devices := [("c", ⟨none, none, none, none, none,
        none, some "rtsp://s"⟩)],
      current_device_id := some "c" }
    ⟨none, none, none, none, none, some "rtsp://m", some "rtsp://s"⟩
    ⟨none, none, none, none, none, some "rtsp://m", none⟩
    ⟨none, none, none, none, none, none, some "rtsp://s"⟩
    rfl (by decide) (by decide) rfl (by decide) (by decide)
    rfl (by decide) (by decide)
  exact ⟨h.2.1, h.2.2.2.2.2.2.2.2.2.2.2.2.1,
    h.2.2.2.2.2.2.2.2.2.2.2.2.2.2.2.1⟩

set_option maxRecDepth 8192 in
/-- C10 counterexample: the body `"Subscribe ConsumerReference</Address>"`
contains no literal `<Address>` opening tag, so no value can be
extracted between an `<Address>`/`</Address>` pair — yet the handler
does not fall back to the placeholder: because `find('<Address>')`
returns `-1` and the guard only checks `start > 0` (with
`start = -1 + 9 = 8`), the code slices `body[8:27]` and records the
garbage consumer reference `"e ConsumerReference"`. -/
theorem C10_counterexample_garbage_consumer_ref :
    containsSubstr "Subscribe ConsumerReference</Address>" "<Address>" = false
    ∧ extractConsumerRef "Subscribe ConsumerReference</Address>"
        = "e ConsumerReference"
    ∧ ("e ConsumerReference" : String) ≠ "http://unknown/notify"
    ∧ (handle_subscription {} "10.0.0.5" "SUB-1" "t0"
          "Subscribe ConsumerReference</Address>").2.subscriptions
        = [("SUB-1", ⟨"e ConsumerReference", "t0"⟩)] := by
  refine ⟨by decide, by decide, by decide, rfl⟩

/-- C10 amended: `handle_subscription` always creates a subscription
under the fresh id and answers with a `SubscribeResponse` embedding it
(the event dispatcher never rejects a body containing `Subscribe`); the
placeholder `http://unknown/notify` is recorded whenever the body lacks
`ConsumerReference`, and also whenever it lacks a literal `</Address>`
closing tag; but a body containing `ConsumerReference` and `</Address>`
without `<Address>` may record a sliced garbage reference instead of
the placeholder (see the counterexample). -/
theorem C10_amended_subscribe_always_succeeds (s : ServerState)
    (serverIp freshId ts body : String) :
    (handle_subscription s serverIp freshId ts body).1
      = subscribeResponse serverIp freshId
    ∧ (handle_subscription s serverIp freshId ts body).2
      = add_subscription s freshId (extractConsumerRef body) ts
    ∧ (containsSubstr body "Subscribe" = true →
        handle_event_service s serverIp freshId ts body
          = .ok (handle_subscription s serverIp freshId ts body))
    ∧ (containsSubstr body "ConsumerReference" = false →
        extractConsumerRef body = "http://unknown/notify")
    ∧ (containsSubstr body "</Address>" = false →
        extractConsumerRef body = "http://unknown/notify") := by
  refine ⟨rfl, rfl, ?_, ?_, ?_⟩
  · intro h
    simp [handle_event_service, h]
  · intro h
    simp [extractConsumerRef, h]
  · intro h
    have hstop := pyFind_of_not_contains body "</Address>" h
    have hge := neg_one_le_pyFind body "<Address>"
    by_cases hc : containsSubstr body "ConsumerReference" = true
    · unfold extractConsumerRef
      rw [if_pos hc, hstop, if_neg]
      rintro ⟨h1, h2⟩
      omega
    · simp only [Bool.not_eq_true] at hc
      simp [extractConsumerRef, hc]

set_option maxRecDepth 8192 in
/-- C10 amended witness: a Subscribe body with no consumer reference at
all is accepted and recorded under the placeholder. -/
theorem C10_amended_subscribe_always_succeeds_witness :
    (handle_subscription {} "10.0.0.5" "S9" "t0" "<wsnt:Subscribe/>").2
      = add_subscription {} "S9" "http://unknown/notify" "t0"
    ∧ handle_event_service {} "10.0.0.5" "S9" "t0" "<wsnt:Subscribe/>"
        = .ok (handle_subscription {} "10.0.0.5" "S9" "t0"
            "<wsnt:Subscribe/>") := by
  have h := C10_amended_subscribe_always_succeeds {} "10.0.0.5" "S9" "t0"
    "<wsnt:Subscribe/>"
  have h4 := h.2.2.2.1 (by decide)
  exact ⟨by rw [h.2.1, h4], h.2.2.1 (by decide)⟩

end VirtualOnvif
